import Mathlib

/-!
Shallow embedding of the relevance-search and context-construction engine of
`1mainfile.py` (FloatChat): temporal extraction, strict and relaxed profile
scoring, ranking, and context summarisation.

Python dictionaries with optional keys are modelled as structures with
`Option` fields; dictionary `.get(k, default)` becomes `Option.getD`;
CPython exceptions (`ValueError` from `int(...)`, `TypeError` from
arithmetic or `format` on `None`) are modelled as `Except Unit` /
`Option` failure values.  Machine text is `String` / `List Char`
(the queries under study are ASCII, where `str.lower`, `\d`, `\s`, `\w`
and `str.isdigit` agree with the ASCII versions embedded here).
-/

/-! ### Python string primitives -/

/-- Python `str.lower()` (ASCII range, which is all the month/keyword
matching needs). -/
def pyLower (s : String) : String := String.mk (s.toList.map Char.toLower)

/-- Python substring test `pat in s` on character lists. -/
def listIsInfix (pat : List Char) : List Char → Bool
  | [] => pat.isEmpty
  | c :: rest => pat.isPrefixOf (c :: rest) || listIsInfix pat rest

/-- Python `kw in query_lower` for a literal keyword. -/
def containsSub (ql : List Char) (kw : String) : Bool := listIsInfix kw.toList ql

/-- `any(kw in query_lower for kw in kws)`. -/
def anyKeyword (ql : List Char) (kws : List String) : Bool := kws.any (containsSub ql)

/-- Digits of a decimal numeral to a natural number. -/
def digitsToNat (ds : List Char) : Nat := ds.foldl (fun acc c => acc * 10 + (c.toNat - '0'.toNat)) 0

/-- Python `int(s)`: optional sign followed by one or more digits
(surrounding whitespace stripped); anything else raises `ValueError`,
modelled as `Except.error ()`. -/
def pyInt (s : String) : Except Unit Int :=
  let t := ((s.toList.dropWhile Char.isWhitespace).reverse.dropWhile Char.isWhitespace).reverse
  match t with
  | '-' :: ds => if ds ≠ [] ∧ ds.all Char.isDigit then .ok (-(digitsToNat ds : Int)) else .error ()
  | '+' :: ds => if ds ≠ [] ∧ ds.all Char.isDigit then .ok (digitsToNat ds) else .error ()
  | ds => if ds ≠ [] ∧ ds.all Char.isDigit then .ok (digitsToNat ds) else .error ()

/-- Python `s.isdigit()` (ASCII digits). -/
def pyIsDigitStr (s : String) : Bool := !s.toList.isEmpty && s.toList.all Char.isDigit

/-- Python `str(x)` for an optional int (`str(None) = "None"`). -/
def pyStrOpt : Option Int → String
  | none => "None"
  | some v => toString v

/-- Python truthiness of an optional int (`None` and `0` are falsy). -/
def truthyI : Option Int → Bool
  | none => false
  | some v => v != 0

/-- Python truthiness of an optional string (`None` and `""` are falsy). -/
def truthyS : Option String → Bool
  | none => false
  | some s => s ≠ ""

/-- Python `s[:n]` on a string. -/
def pyStrTake (s : String) (n : Nat) : String := String.mk (s.toList.take n)

/-- Python `f"{m:02d}"` for an int. -/
def fmt02d (m : Int) : String :=
  let s := toString m
  if s.length < 2 then "0" ++ s else s

/-- Python `f"{m:02d}"` where the value may be `None`: formatting `None`
with a `d` format spec raises `TypeError`, modelled as `Except.error ()`. -/
def fmt02dOpt : Option Int → Except Unit String
  | none => .error ()
  | some m => .ok (fmt02d m)

/-- Left-pad a numeral with zeros to width `w`. -/
def leftPad0 (w : Nat) (s : String) : String :=
  if s.length < w then String.mk (List.replicate (w - s.length) '0') ++ s else s

/-- Python `f"{x:.dec f}"` fixed-point rendering, modelled on the rational
value (the float statistics are abstracted as rationals; exact-tie rounding
uses round-half-up where CPython uses the binary float's half-even). -/
def fmtFixed (dec : Nat) (x : ℚ) : String :=
  let scaled : Int := round (x * (10 : ℚ) ^ dec)
  let sign := if scaled < 0 then "-" else ""
  let n := scaled.natAbs
  if dec = 0 then sign ++ toString n
  else sign ++ toString (n / 10 ^ dec) ++ "." ++ leftPad0 dec (toString (n % 10 ^ dec))

/-- Lexicographic (code-point) order on strings, as Python compares `str`. -/
def lexLeChars : List Char → List Char → Bool
  | [], _ => true
  | _ :: _, [] => false
  | a :: as, b :: bs => if a = b then lexLeChars as bs else decide (a < b)

/-- Boolean `≤` on strings (Python `sorted` order for the group keys). -/
def strLeB (a b : String) : Bool := lexLeChars a.toList b.toList

/-- Boolean `≤` on ints (Python `sorted` order for the year keys). -/
def intLeB (a b : Int) : Bool := decide (a ≤ b)

/-- Python `sep.join(parts)`. -/
def pyJoin (sep : String) : List String → String
  | [] => ""
  | x :: xs => xs.foldl (fun acc y => acc ++ sep ++ y) x

/-! ### Stable sorting (Python `list.sort(key=..., reverse=True)`)

Python's sort is stable; a stable sort is extensionally unique, so binary
insertion that places each later element after earlier `le`-equal ones is
an exact model of the observable contract. -/

/-- Insert `a` before the first element `b` with `le a b`. -/
def insertLe (le : α → α → Bool) (a : α) : List α → List α
  | [] => [a]
  | b :: l => if le a b then a :: b :: l else b :: insertLe le a l

/-- Stable sort by the boolean relation `le`. -/
def insSortBy (le : α → α → Bool) : List α → List α
  | [] => []
  | a :: l => insertLe le a (insSortBy le l)

/-! ### Regex embeddings

The source uses four fixed regular expressions; each is embedded as a
direct matcher with the same backtracking behaviour, together with
`re.search`'s leftmost-position scan and `re.findall`'s non-overlapping
scan. -/

/-- `re.search`: try the position matcher at every start position from the
left, first success wins. -/
def reSearch (p : List Char → Option α) : List Char → Option α
  | [] => p []
  | c :: rest =>
    match p (c :: rest) with
    | some r => some r
    | none => reSearch p rest

/-- `\s+`: consume one or more whitespace characters (maximal munch; the
continuations here always begin with a non-whitespace token, so greedy
consumption never needs backtracking). -/
def eatWsStar : List Char → List Char
  | [] => []
  | c :: rest => if c.isWhitespace then eatWsStar rest else c :: rest

/-- `\s+` requiring at least one whitespace character. -/
def eatWs1 : List Char → Option (List Char)
  | [] => none
  | c :: rest => if c.isWhitespace then some (eatWsStar rest) else none

/-- `(20\d{2})`: a literal `20` followed by two digits. -/
def matchYear : List Char → Option (String × List Char)
  | '2' :: '0' :: a :: b :: rest =>
    if a.isDigit && b.isDigit then some (String.mk ['2', '0', a, b], rest) else none
  | _ => none

/-- `(\d{1,2})` greedy with backtracking into the continuation `k`. -/
def digits1or2 (s : List Char) (k : String → List Char → Option α) : Option α :=
  match s with
  | [] => none
  | [a] => if a.isDigit then k (String.mk [a]) [] else none
  | a :: b :: rest =>
    if a.isDigit then
      if b.isDigit then
        match k (String.mk [a, b]) rest with
        | some r => some r
        | none => k (String.mk [a]) (b :: rest)
      else k (String.mk [a]) (b :: rest)
    else none

/-- The month-name alternation of the date patterns, in the source's
alternative order (full name before its 3-letter abbreviation). -/
def monthNamesAlt : List String :=
  ["january", "jan", "february", "feb", "march", "mar", "april", "apr", "may",
   "june", "jun", "july", "jul", "august", "aug", "september", "sep",
   "october", "oct", "november", "nov", "december", "dec"]

/-- Regex alternation over the month names with backtracking: try each
alternative in order, and on failure of the continuation `k` move on to
the next alternative. -/
def tryMonths (names : List String) (s : List Char) (k : List Char → Option α) :
    Option (String × α) :=
  match names with
  | [] => none
  | n :: ns =>
    match (if n.toList.isPrefixOf s then (k (s.drop n.toList.length)).map (fun a => (n, a))
           else none) with
    | some r => some r
    | none => tryMonths ns s k

/-- The three captured groups of a date pattern. -/
def DateGroups := String × String × String

/-- Pattern `(\d{1,2})\s+(january|...|dec)\s+(20\d{2})` anchored at the
current position. -/
def pat1At (s : List Char) : Option DateGroups :=
  digits1or2 s (fun d s1 => do
    let s2 ← eatWs1 s1
    let (mn, y) ← tryMonths monthNamesAlt s2 (fun s3 => do
      let s4 ← eatWs1 s3
      let (y, _) ← matchYear s4
      pure y)
    pure (d, mn, y))

/-- Pattern `(january|...|dec)\s+(\d{1,2})\s+(20\d{2})` anchored at the
current position. -/
def pat2At (s : List Char) : Option DateGroups :=
  (tryMonths monthNamesAlt s (fun s1 => do
    let s2 ← eatWs1 s1
    digits1or2 s2 (fun d s3 => do
      let s4 ← eatWs1 s3
      let (y, _) ← matchYear s4
      pure (d, y)))).map (fun (mn, d, y) => (mn, d, y))

/-- Pattern `(20\d{2})-(\d{1,2})-(\d{1,2})` anchored at the current
position. -/
def pat3At (s : List Char) : Option DateGroups := do
  let (y, s1) ← matchYear s
  match s1 with
  | '-' :: s2 =>
    digits1or2 s2 (fun mo s3 =>
      match s3 with
      | '-' :: s4 => digits1or2 s4 (fun d _ => some (y, mo, d))
      | _ => none)
  | _ => none

/-- `\b(20\d{2})\b` match at the head of `l` given the previous character,
used by the `re.findall` scan (fuel = remaining length, consumed one per
step, so it always suffices). -/
def findYearTokensF : Nat → Option Char → List Char → List String
  | 0, _, _ => []
  | _ + 1, _, [] => []
  | fuel + 1, prev, l =>
    match l with
    | '2' :: '0' :: a :: b :: rest =>
      if (match prev with | none => true | some c => !(c.isAlphanum || c == '_')) &&
         a.isDigit && b.isDigit &&
         (match rest with | [] => true | c :: _ => !(c.isAlphanum || c == '_')) then
        String.mk ['2', '0', a, b] :: findYearTokensF fuel (some b) rest
      else findYearTokensF fuel (some '2') ('0' :: a :: b :: rest)
    | c :: rest => findYearTokensF fuel (some c) rest
    | [] => []

/-- `re.findall(r'\b(20\d{2})\b', query)` (line 879 / 1113). -/
def yearsInQuery (q : String) : List String := findYearTokensF q.toList.length none q.toList

/-- `re.search(r'last\s+(\d+)\s+months?', query_lower)` anchored at the
current position; returns the digit group. -/
def lastMonthsAt (s : List Char) : Option (List Char) :=
  if "last".toList.isPrefixOf s then do
    let s1 ← eatWs1 (s.drop 4)
    let ds := s1.takeWhile Char.isDigit
    if ds = [] then none
    else do
      let s2 ← eatWs1 (s1.drop ds.length)
      if "month".toList.isPrefixOf s2 then some ds else none
  else none

/-! ### Month table and specific-date extraction -/

/-- The `months_map` dictionary (lines 866-870 / 907-912), in insertion
order. -/
def monthsMapList : List (String × Int) :=
  [("january", 1), ("jan", 1), ("february", 2), ("feb", 2), ("march", 3), ("mar", 3),
   ("april", 4), ("apr", 4), ("may", 5), ("june", 6), ("jun", 6),
   ("july", 7), ("jul", 7), ("august", 8), ("aug", 8), ("september", 9), ("sep", 9),
   ("october", 10), ("oct", 10), ("november", 11), ("nov", 11), ("december", 12), ("dec", 12)]

/-- `_month_to_number` (lines 863-871): dictionary lookup with default 1. -/
def monthToNumber (s : String) : Int := (monthsMapList.lookup (pyLower s)).getD 1

/-- A parsed specific date `{'year': ..., 'month': ..., 'day': ...}`. -/
structure SpecificDate where
  year : Int
  month : Int
  day : Int
deriving DecidableEq

/-- Group disambiguation (lines 893-903): which captured group is the
4-digit year decides the day/month/year roles; `int()` on a month name
raises `ValueError` (`Except.error`). -/
def pickDate (g : DateGroups) : Except Unit SpecificDate :=
  let (g0, g1, g2) := g
  if pyIsDigitStr g0 ∧ g0.length = 4 then do
    let y ← pyInt g0
    let mo ← pyInt g1
    let d ← pyInt g2
    .ok ⟨y, mo, d⟩
  else if "20".toList.isPrefixOf g2.toList then do
    let d ← pyInt g0
    let y ← pyInt g2
    .ok ⟨y, monthToNumber g1, d⟩
  else do
    let d ← pyInt g1
    let y ← pyInt g2
    .ok ⟨y, monthToNumber g0, d⟩

/-- Specific-date extraction (lines 882-904): the three `date_patterns`
tried in order with `re.search`, short-circuiting on the first match. -/
def extractSpecificDate (ql : List Char) : Except Unit (Option SpecificDate) :=
  match reSearch pat1At ql with
  | some g => (pickDate g).map some
  | none =>
    match reSearch pat2At ql with
    | some g => (pickDate g).map some
    | none =>
      match reSearch pat3At ql with
      | some g => (pickDate g).map some
      | none => .ok none

/-- Month extraction loop (lines 914-918): every `months_map` entry whose
name is a substring of the lower-cased query, in table order. -/
def monthsFromQuery (ql : List Char) : List Int :=
  (monthsMapList.filter (fun e => listIsInfix e.1.toList ql)).map (·.2)

/-- `list(range(max(1, 13 - num_months), 13))` (line 925). -/
def lastMonthsRange (n : Nat) : List Int :=
  let lo : Int := max 1 (13 - (n : Int))
  (List.range (13 - lo).toNat).map (fun i => lo + (i : Int))

/-- The `is_generic_query` keyword test (lines 927-929). -/
def isGenericQuery (ql : List Char) : Bool :=
  anyKeyword ql ["summary", "overview", "tell me about", "show me",
                 "uploaded", "this file", "analyze", "what is"]

/-! ### Data model

Profile records are nested dictionaries with optional keys; each level
whose absence the code defaults with `.get(k, {})` is an `Option`
structure field. -/

/-- Per-variable statistics dictionary (`.get('min'/'max'/'mean', 0)`). -/
structure Stats where
  min : Option ℚ
  max : Option ℚ
  mean : Option ℚ
deriving DecidableEq

/-- One entry of `core_variables` / `bgc_variables`: `present` truthiness
plus a `statistics` dictionary (absent dictionary = all-absent stats). -/
structure VarData where
  present : Bool
  statistics : Stats
deriving DecidableEq

/-- The `core_variables` keys the code reads. -/
structure CoreVars where
  TEMP : Option VarData
  PSAL : Option VarData
  DOXY : Option VarData
  PRES : Option VarData
deriving DecidableEq

/-- The `bgc_variables` key the code reads. -/
structure BgcVars where
  CHLA : Option VarData
deriving DecidableEq

/-- The `measurements` dictionary. -/
structure Measurements where
  core_variables : Option CoreVars
  bgc_variables : Option BgcVars
deriving DecidableEq

/-- The `temporal` dictionary. -/
structure Temporal where
  year : Option Int
  month : Option Int
  day : Option Int
  datetime : Option String
deriving DecidableEq

/-- The empty `temporal` dictionary (`profile.get('temporal', {})`). -/
def Temporal.empty : Temporal := ⟨none, none, none, none⟩

/-- The `geospatial` dictionary. -/
structure Geospatial where
  regional_seas : Option (List String)
deriving DecidableEq

/-- One profile record. -/
structure Profile where
  temporal : Option Temporal
  geospatial : Option Geospatial
  measurements : Option Measurements
  uploadedFlag : Bool
  uploadedFilename : Option String
deriving DecidableEq

/-- `profile.get('temporal', {})`. -/
def Profile.temporalD (p : Profile) : Temporal := p.temporal.getD Temporal.empty

/-- `profile.get('geospatial', {}).get('regional_seas', default)`. -/
def Profile.regionsD (p : Profile) (dflt : List String) : List String :=
  ((p.geospatial.getD ⟨none⟩).regional_seas).getD dflt

/-- `profile.get('measurements', {}).get('core_variables', {})`. -/
def Profile.coreVars (p : Profile) : CoreVars :=
  ((p.measurements.getD ⟨none, none⟩).core_variables).getD ⟨none, none, none, none⟩

/-- `profile.get('measurements', {}).get('bgc_variables', {})`. -/
def Profile.bgcVars (p : Profile) : BgcVars :=
  ((p.measurements.getD ⟨none, none⟩).bgc_variables).getD ⟨none⟩

/-- `var_dict.get(code, {}).get('present')` truthiness. -/
def vdPresent (v : Option VarData) : Bool := (v.map (·.present)).getD false

/-- `var_dict.get(code, {}).get('statistics', {})`. -/
def vdStats (v : Option VarData) : Stats := (v.getD ⟨false, ⟨none, none, none⟩⟩).statistics

/-! ### Strict profile scorer (`search_relevant_data` loop body,
lines 931-1008)

The per-profile `try/except Exception: continue` makes the score an
`Option Int`: `none` models an exception that skips the profile.  In this
typed model the only raising operation is `abs(profile_month - m)` with
`profile_month = None` (month adjacency, line 969). -/

/-- A region name normalised as on lines 977 / 1073:
`region.lower().replace('_', ' ')`. -/
def regionClean (r : String) : String :=
  String.mk ((pyLower r).toList.map (fun c => if c = '_' then ' ' else c))

/-- Specific-date tier of the strict scorer (lines 948-959); exclusive
best-bucket choice.  Here `profile_day and ...` uses int truthiness. -/
def strictDateTier (py pm pdy : Option Int) (d : SpecificDate) : Int :=
  if py = some d.year ∧ pm = some d.month then
    match pdy with
    | none => 8
    | some v =>
      if v = d.day then 20
      else if v ≠ 0 ∧ (v - d.day).natAbs ≤ 3 then 15
      else if v ≠ 0 ∧ (v - d.day).natAbs ≤ 7 then 10
      else 8
  else 0

/-- Year/month tier of the strict scorer (lines 962-972), reached only
when no specific date was extracted and the year list is non-empty.
`str(profile_year) in years_in_query` is a string comparison;
`abs(profile_month - m)` raises on a `None` month (`none`).
Month sub-points (lines 966-972). -/
def strictMonthSubPts (pm : Option Int) (months : List Int) : Option Int :=
  if months = [] then some 5
  else if (match pm with | some v => decide (v ∈ months) | none => false) then some 8
  else match pm with
       | some v => some (if months.any (fun m => (v - m).natAbs ≤ 1) then 5 else 0)
       | none => none

/-- Year tier wrapper (lines 962-972): +10 for a quoted year plus the
month sub-points. -/
def strictYearMonthTier (py pm : Option Int) (years : List String) (months : List Int) :
    Option Int :=
  if pyStrOpt py ∈ years then
    match strictMonthSubPts pm months with
    | some mpts => some (10 + mpts)
    | none => none
  else some 0

/-- Region tier (lines 975-979): +5 per region whose normalised name is a
substring of the lower-cased query. -/
def strictRegionPts (p : Profile) (ql : List Char) : Int :=
  5 * ((p.regionsD []).filter (fun r => listIsInfix (regionClean r).toList ql)).length

/-- Parameter-keyword tier (lines 982-1000): five independent +3 rules. -/
def strictParamPts (p : Profile) (ql : List Char) : Int :=
  (if (containsSub ql "temperature" || containsSub ql "temp") &&
      vdPresent p.coreVars.TEMP then 3 else 0) +
  (if (containsSub ql "salinity" || containsSub ql "salt" || containsSub ql "psal") &&
      vdPresent p.coreVars.PSAL then 3 else 0) +
  (if (containsSub ql "oxygen" || containsSub ql "doxy") &&
      vdPresent p.coreVars.DOXY then 3 else 0) +
  (if (containsSub ql "chlorophyll" || containsSub ql "chla") &&
      vdPresent p.bgcVars.CHLA then 3 else 0) +
  (if (containsSub ql "pressure" || containsSub ql "depth" || containsSub ql "pres") &&
      vdPresent p.coreVars.PRES then 3 else 0)

/-- The temporal tier of the strict scorer (lines 948-972): the
specific-date tier when a date was extracted, else the year/month tier
when the query quoted years.  In the full score (lines 931-1008) this is
combined with the uploaded-file boost, region tier, parameter tier, and
the fallback that lifts a zero score to 1 for `TEMP.present` profiles;
`none` = profile skipped by the `except Exception: continue`. -/
def strictTemporalPts (t : Temporal) (years : List String) (months : List Int)
    (sd : Option SpecificDate) : Option Int :=
  match sd with
  | some d => some (strictDateTier t.year t.month t.day d)
  | none => if years ≠ [] then strictYearMonthTier t.year t.month years months else some 0

/-- The strict per-profile score assembled from its tiers. -/
def scoreProfileStrict (p : Profile) (ql : List Char) (years : List String)
    (months : List Int) (sd : Option SpecificDate) (isGen : Bool) : Option Int :=
  match strictTemporalPts p.temporalD years months sd with
  | none => none
  | some temporalPts =>
    let uplPts : Int := if isGen && p.uploadedFlag then 10 else 0
    let total := uplPts + temporalPts + strictRegionPts p ql + strictParamPts p ql
    some (if total = 0 then (if vdPresent p.coreVars.TEMP then 1 else 0) else total)

/-! ### Relaxed profile scorer (`search_relevant_data_flexible` loop body,
lines 1030-1084) -/

/-- Expanded date tier (lines 1043-1053): additive year/month/day bonuses. -/
def flexDateTier (py pm pdy : Option Int) (d : SpecificDate) : Int :=
  if py = some d.year then
    6 + (if pm = some d.month then
           8 + (if truthyI pdy && decide (((pdy.getD 0) - d.day).natAbs ≤ 14) then 10 else 0)
         else if truthyI pm && decide (((pm.getD 0) - d.month).natAbs ≤ 1) then 4 else 0)
  else 0

/-- Expanded year tier (lines 1056-1061): exact +8, ±1 year +4;
`abs(profile_year - y)` raises on a `None` year. -/
def flexYearTier (py : Option Int) (tys : List Int) : Option Int :=
  if (match py with | some v => decide (v ∈ tys) | none => false) then some 8
  else match py with
       | some v => some (if tys.any (fun y => (v - y).natAbs ≤ 1) then 4 else 0)
       | none => if tys = [] then some 0 else none

/-- Expanded month tier (lines 1064-1068): exact +6, ±2 months +3;
`abs(profile_month - m)` raises on a `None` month. -/
def flexMonthTier (pm : Option Int) (months : List Int) : Option Int :=
  if months = [] then some 0
  else if (match pm with | some v => decide (v ∈ months) | none => false) then some 6
  else match pm with
       | some v => some (if months.any (fun m => (v - m).natAbs ≤ 2) then 3 else 0)
       | none => none

/-- Date/year points of the relaxed scorer: the `if specific_date ... elif
years ...` chain (lines 1043-1061); `[int(y) for y in years]` (line 1057)
raises if a year token is not numeric. -/
def flexDateYearPts (py pm pdy : Option Int) (years : List String) (sd : Option SpecificDate) :
    Option Int :=
  match sd with
  | some d => some (flexDateTier py pm pdy d)
  | none =>
    if years = [] then some 0
    else match years.mapM (fun y => (pyInt y).toOption) with
         | none => none
         | some tys => flexYearTier py tys

/-- Region tier of the relaxed scorer (lines 1071-1074): +4 per match. -/
def flexRegionPts (p : Profile) (ql : List Char) : Int :=
  4 * ((p.regionsD []).filter (fun r => listIsInfix (regionClean r).toList ql)).length

/-- Parameter tier of the relaxed scorer (lines 1077-1081). -/
def flexParamPts (p : Profile) (ql : List Char) : Int :=
  if containsSub ql "temperature" || containsSub ql "salinity" || containsSub ql "analysis" then
    (if vdPresent p.coreVars.TEMP then 2 else 0) + (if vdPresent p.coreVars.PSAL then 2 else 0)
  else 0

/-- The relaxed per-profile score (lines 1030-1084); `none` = profile
skipped by the `except Exception: continue`. -/
def scoreProfileFlexible (p : Profile) (ql : List Char) (years : List String)
    (months : List Int) (sd : Option SpecificDate) : Option Int :=
  let t := p.temporalD
  match flexDateYearPts t.year t.month t.day years sd with
  | none => none
  | some dyPts =>
    match flexMonthTier t.month months with
    | none => none
    | some mPts => some (dyPts + mPts + flexRegionPts p ql + flexParamPts p ql)

/-! ### Ranking and the two search entry points -/

/-- Descending-score order used by `sort(key=lambda x: x[1], reverse=True)`. -/
def scoreGeB (a b : Profile × Int) : Bool := decide (b.2 ≤ a.2)

/-- The accumulation loop: keep `(profile, score)` only when the scorer
completed and the score is strictly positive (lines 1010-1011 / 1086-1087). -/
def positivelyScored (score : Profile → Option Int) (profiles : List Profile) :
    List (Profile × Int) :=
  profiles.filterMap (fun p =>
    match score p with
    | some s => if 0 < s then some (p, s) else none
    | none => none)

/-- Stable descending sort, truncate to 15, project the profiles
(lines 1013 / 1023 and 1089-1090). -/
def rankProfiles (scored : List (Profile × Int)) : List Profile :=
  ((insSortBy scoreGeB scored).take 15).map Prod.fst

/-- The extracted query intent feeding the strict pass. -/
structure QueryIntent where
  ql : List Char
  years : List String
  months : List Int
  sd : Option SpecificDate
  generic : Bool
deriving DecidableEq

/-- Intent extraction of `search_relevant_data` (lines 875-929): lower-case
the query, find year tokens, try the date patterns (which can raise), run
the month loop only when no date matched, apply the `last N months`
override when a year is present, and test the generic keywords. -/
def queryIntent (q : String) : Except Unit QueryIntent :=
  let ql := (pyLower q).toList
  let years := yearsInQuery q
  match extractSpecificDate ql with
  | .error e => .error e
  | .ok sd =>
    let months0 := if sd.isSome then [] else monthsFromQuery ql
    let months := match reSearch lastMonthsAt ql with
      | some ds => if years ≠ [] then lastMonthsRange (digitsToNat ds) else months0
      | none => months0
    .ok ⟨ql, years, months, sd, isGenericQuery ql⟩

/-- The strict pass's positively-scored pairs. -/
def strictScoredList (i : QueryIntent) (profiles : List Profile) : List (Profile × Int) :=
  positivelyScored (fun p => scoreProfileStrict p i.ql i.years i.months i.sd i.generic) profiles

/-- The relaxed pass's positively-scored pairs. -/
def flexScoredList (ql : List Char) (years : List String) (months : List Int)
    (sd : Option SpecificDate) (profiles : List Profile) : List (Profile × Int) :=
  positivelyScored (fun p => scoreProfileFlexible p ql years months sd) profiles

/-- `search_relevant_data_flexible` (lines 1025-1090). -/
def searchRelevantDataFlexible (q : String) (profiles : List Profile) (years : List String)
    (months : List Int) (sd : Option SpecificDate) : List Profile :=
  rankProfiles (flexScoredList (pyLower q).toList years months sd profiles)

/-- `search_relevant_data` (lines 873-1023): strict pass, then — when the
strict pass is empty and the query carried a temporal signal — the relaxed
fallback (the `st.info` notice is UI-only and not modelled).  The
`Except` propagates a `ValueError` from date extraction. -/
def searchRelevantData (q : String) (profiles : List Profile) : Except Unit (List Profile) :=
  match queryIntent q with
  | .error e => .error e
  | .ok i =>
    let ranked := insSortBy scoreGeB (strictScoredList i profiles)
    if ranked.isEmpty && (!i.years.isEmpty || !i.months.isEmpty || i.sd.isSome) then
      .ok (searchRelevantDataFlexible q profiles i.years i.months i.sd)
    else
      .ok ((ranked.take 15).map Prod.fst)

/-! ### Context summarizer (`create_context_summary`, lines 1092-1200) -/

/-- ` | TEMP: min-max°C (mean: mean°C)` segment (lines 1144-1147 /
1181-1184); statistics default to 0 when absent. -/
def tempSegment (cv : CoreVars) : String :=
  if vdPresent cv.TEMP then
    let st := vdStats cv.TEMP
    " | TEMP: " ++ fmtFixed 2 (st.min.getD 0) ++ "-" ++ fmtFixed 2 (st.max.getD 0) ++
      "°C (mean: " ++ fmtFixed 2 (st.mean.getD 0) ++ "°C)"
  else ""

/-- ` | SAL: min-max PSU (mean: mean PSU)` segment (lines 1150-1153 /
1187-1190). -/
def salSegment (cv : CoreVars) : String :=
  if vdPresent cv.PSAL then
    let st := vdStats cv.PSAL
    " | SAL: " ++ fmtFixed 2 (st.min.getD 0) ++ "-" ++ fmtFixed 2 (st.max.getD 0) ++
      " PSU (mean: " ++ fmtFixed 2 (st.mean.getD 0) ++ " PSU)"
  else ""

/-- ` | DEPTH: 0-maxm` segment (lines 1155-1158 / 1193-1196). -/
def depthSegment (cv : CoreVars) : String :=
  " | DEPTH: 0-" ++ fmtFixed 0 ((vdStats cv.PRES).max.getD 0) ++ "m"

/-- ` (File: name)` suffix for uploaded profiles (lines 1138-1139 /
1175-1176), gated on string truthiness of `_uploaded_filename`. -/
def fileSuffix (p : Profile) : String :=
  if truthyS p.uploadedFilename then " (File: " ++ p.uploadedFilename.getD "" ++ ")" else ""

/-- The comma-joined region display with the `['Ocean']` default
(lines 1134 / 1171). -/
def regionsDisplay (p : Profile) : String := pyJoin ", " (p.regionsD ["Ocean"])

/-- The first 10 characters of the profile datetime, `'unknown'` when
absent (lines 1133 / 1167). -/
def dateDisplay (p : Profile) : String := pyStrTake (p.temporalD.datetime.getD "unknown") 10

/-- One comparison-branch profile segment (lines 1128-1160); `year` is the
dictionary key, rendered plainly, so this branch cannot raise. -/
def comparisonSegment (ql : List Char) (isSummary : Bool) (y : Int) (p : Profile) : String :=
  let cv := p.coreVars
  "REAL DATA [" ++ toString y ++ "] - Profile " ++ dateDisplay p ++ " from " ++
    regionsDisplay p ++ fileSuffix p ++
    (if containsSub ql "temperature" || containsSub ql "temp" || isSummary
     then tempSegment cv else "") ++
    (if containsSub ql "salinity" || containsSub ql "salt" || isSummary
     then salSegment cv else "") ++
    (if vdPresent cv.PRES && isSummary then depthSegment cv else "")

/-- One non-comparison profile segment (lines 1162-1198): the header
formats `{year}` with plain `str` but `{month:02d}`/`{day:02d}` with a
numeric spec, which raises `TypeError` on a missing month or day. -/
def simpleSegment (p : Profile) : Except Unit String := do
  let t := p.temporalD
  let mStr ← fmt02dOpt t.month
  let dStr ← fmt02dOpt t.day
  let cv := p.coreVars
  .ok ("REAL DATA [" ++ pyStrOpt t.year ++ "-" ++ mStr ++ "-" ++ dStr ++ "] - Profile " ++
    dateDisplay p ++ " from " ++ regionsDisplay p ++ fileSuffix p ++
    tempSegment cv ++ salSegment cv ++
    (if vdPresent cv.PRES then depthSegment cv else ""))

/-- The `f"{year}-{month:02d}"` grouping key (line 1106), defined only when
both fields are truthy (line 1105). -/
def groupKeyOf (p : Profile) : Option String :=
  match p.temporalD.year, p.temporalD.month with
  | some y, some m => if y ≠ 0 ∧ m ≠ 0 then some (toString y ++ "-" ++ fmt02d m) else none
  | _, _ => none

/-- `create_context_summary` (lines 1092-1200).  The result is
`Except Unit String`: `Except.error ()` models the `TypeError` the
non-comparison branch raises on a profile lacking `temporal.month` or
`temporal.day`. -/
def createContextSummary (profiles : List Profile) (q : String) : Except Unit String :=
  if profiles.isEmpty then .ok "No relevant data found in the specified time period."
  else
    let ql := (pyLower q).toList
    let keys := (profiles.filterMap groupKeyOf).eraseDups
    let rangeParts : List String :=
      if 1 < keys.length then
        let sortedKeys := insSortBy strLeB keys
        ["TEMPORAL RANGE: " ++ sortedKeys.headD "" ++ " to " ++ sortedKeys.getLastD "" ++
          " (" ++ toString profiles.length ++ " profiles)"]
      else []
    let years := yearsInQuery q
    let isSummary := anyKeyword ql ["summary", "overview", "tell me", "analyze", "analysis"]
    let isComparison := anyKeyword ql ["compare", "difference", "vs", "versus"]
    let partsE : Except Unit (List String) :=
      if isComparison && !years.isEmpty then
        -- Group by year keeping only profiles whose `str(year)` is quoted in
        -- the query (lines 1118-1124); a `None` year stringifies to "None",
        -- which can never equal a `\b20\d{2}\b` token, so only int years
        -- reach the dictionary.
        let yearKeys := (profiles.filterMap (fun p =>
          match p.temporalD.year with
          | some y => if pyStrOpt (some y) ∈ years then some y else none
          | none => none)).eraseDups
        let sortedYears := insSortBy intLeB yearKeys
        .ok (sortedYears.flatMap (fun y =>
          ((profiles.filter (fun p => p.temporalD.year = some y)).take 3).map
            (comparisonSegment ql isSummary y)))
      else
        (profiles.take 10).mapM simpleSegment
    match partsE with
    | .error e => .error e
    | .ok parts => .ok (pyJoin " || " (rangeParts ++ parts))

/-! ### Concrete profiles used as witnesses and counterexamples -/

/-- A profile carrying only a region: it scores on the region tier but has
no `temporal` dictionary at all. -/
def profileRegionOnly : Profile :=
  { temporal := none
  , geospatial := some ⟨some ["arabian_sea"]⟩
  , measurements := none
  , uploadedFlag := false
  , uploadedFilename := none }

/-- A complete single-group profile dated 2022-05-01. -/
def profileMay2022 : Profile :=
  { temporal := some ⟨some 2022, some 5, some 1, some "2022-05-01T00:00:00"⟩
  , geospatial := some ⟨some ["bay_of_bengal"]⟩
  , measurements := none
  , uploadedFlag := false
  , uploadedFilename := none }

/-- A bare profile whose only content is `TEMP.present = true`. -/
def profileTempOnly : Profile :=
  { temporal := none
  , geospatial := none
  , measurements := some ⟨some ⟨some ⟨true, ⟨none, none, none⟩⟩, none, none, none⟩, none⟩
  , uploadedFlag := false
  , uploadedFilename := none }

/-! ### Sorting lemmas

The descending stable sort used by both search passes: membership,
sortedness, stability (score-classes are preserved verbatim), and
emptiness. -/

theorem mem_insertLe {le : α → α → Bool} {a x : α} {l : List α} :
    x ∈ insertLe le a l ↔ x = a ∨ x ∈ l := by
  induction l with
  | nil => simp [insertLe]
  | cons b t ih =>
    by_cases h : le a b
    · simp [insertLe, h]
    · simp only [insertLe, h, Bool.false_eq_true, if_false, List.mem_cons, ih]
      tauto

theorem pairwise_insertLe {a : Profile × Int} {l : List (Profile × Int)}
    (h : l.Pairwise (fun x y => y.2 ≤ x.2)) :
    (insertLe scoreGeB a l).Pairwise (fun x y => y.2 ≤ x.2) := by
  induction l with
  | nil => simp [insertLe]
  | cons b t ih =>
    rw [List.pairwise_cons] at h
    obtain ⟨hb, ht⟩ := h
    by_cases hab : scoreGeB a b
    · have hba : b.2 ≤ a.2 := of_decide_eq_true hab
      simp only [insertLe, hab, if_true]
      refine List.Pairwise.cons ?_ (List.Pairwise.cons hb ht)
      intro y hy
      rcases List.mem_cons.mp hy with rfl | hy'
      · exact hba
      · exact le_trans (hb y hy') hba
    · have hba : ¬ b.2 ≤ a.2 := fun hc => hab (decide_eq_true hc)
      simp only [insertLe, hab, Bool.false_eq_true, if_false]
      refine List.Pairwise.cons ?_ (ih ht)
      intro y hy
      rcases mem_insertLe.mp hy with rfl | hy'
      · exact le_of_lt (lt_of_not_le hba)
      · exact hb y hy'

theorem pairwise_insSortBy (l : List (Profile × Int)) :
    (insSortBy scoreGeB l).Pairwise (fun x y => y.2 ≤ x.2) := by
  induction l with
  | nil => exact List.Pairwise.nil
  | cons a t ih => exact pairwise_insertLe ih

theorem filter_insertLe (s : Int) (a : Profile × Int) (l : List (Profile × Int)) :
    (insertLe scoreGeB a l).filter (fun x => decide (x.2 = s)) =
      (a :: l).filter (fun x => decide (x.2 = s)) := by
  induction l with
  | nil => simp [insertLe]
  | cons b t ih =>
    by_cases hab : scoreGeB a b
    · simp [insertLe, hab]
    · have hba : a.2 < b.2 := lt_of_not_le (fun hc => hab (decide_eq_true hc))
      by_cases has : a.2 = s
      · have hbs : ¬ b.2 = s := by omega
        simp only [insertLe, hab, Bool.false_eq_true, if_false, List.filter_cons] at ih ⊢
        rw [decide_eq_false hbs]
        rw [decide_eq_true has] at ih ⊢
        simp only [Bool.false_eq_true, if_false, if_true] at ih ⊢
        exact ih
      · simp only [insertLe, hab, Bool.false_eq_true, if_false, List.filter_cons] at ih ⊢
        rw [decide_eq_false has] at ih ⊢
        simp only [Bool.false_eq_true, if_false] at ih ⊢
        rw [ih]

theorem filter_insSortBy (s : Int) (l : List (Profile × Int)) :
    (insSortBy scoreGeB l).filter (fun x => decide (x.2 = s)) =
      l.filter (fun x => decide (x.2 = s)) := by
  induction l with
  | nil => rfl
  | cons a t ih =>
    show (insertLe scoreGeB a (insSortBy scoreGeB t)).filter _ = _
    rw [filter_insertLe, List.filter_cons, ih, List.filter_cons]

theorem insertLe_ne_nil {le : α → α → Bool} {a : α} {l : List α} :
    insertLe le a l ≠ [] := by
  cases l with
  | nil => simp [insertLe]
  | cons b t =>
    by_cases h : le a b <;> simp [insertLe, h]

theorem insSortBy_eq_nil_iff {le : α → α → Bool} {l : List α} :
    insSortBy le l = [] ↔ l = [] := by
  cases l with
  | nil => simp [insSortBy]
  | cons a t =>
    simp only [insSortBy]
    exact ⟨fun h => absurd h insertLe_ne_nil, fun h => by cases h⟩

theorem mem_positivelyScored {score : Profile → Option Int} {profiles : List Profile}
    {x : Profile × Int} (hx : x ∈ positivelyScored score profiles) : 0 < x.2 := by
  unfold positivelyScored at hx
  rcases List.mem_filterMap.mp hx with ⟨p, _, hf⟩
  rcases hsc : score p with _ | s
  · rw [hsc] at hf; cases hf
  · rw [hsc] at hf
    by_cases hs : 0 < s
    · simp only [hs, if_pos] at hf
      cases hf
      exact hs
    · simp [hs] at hf

/-! ### Claim theorems -/

/-- C1.  Date-extraction round-trip.  The first two sub-claims hold:
a query of the form `D Month YYYY` or `YYYY-M-D` yields
`{year: 2023, month: 8, day: 15}`.  The third fails: on `"August 15 2023"`
the second pattern matches with groups `('august', '15', '2023')`, the
disambiguation reaches the `groups[2].startswith('20')` branch first and
executes `int('august')`, raising `ValueError` — the `else` branch that
would handle the month-name-first order is unreachable, since group 3 of
both word patterns is always `20\d{2}`. -/
theorem spec_C1 :
    extractSpecificDate (pyLower "15 August 2023").toList = .ok (some ⟨2023, 8, 15⟩)
  ∧ extractSpecificDate (pyLower "2023-08-15").toList = .ok (some ⟨2023, 8, 15⟩)
  ∧ extractSpecificDate (pyLower "August 15 2023").toList = .error () := by
  exact ⟨rfl, rfl, rfl⟩

/-- C2.  Totality of the summarizer fails on the code: a profile that
scores positively on the region tier (here +5 for `arabian_sea`) while
lacking every `temporal` field passes the strict search, but
`create_context_summary` then raises `TypeError` when formatting the
missing month with `{month:02d}` (line 1173), an unhandled fault at the
caller. -/
theorem spec_C2 :
    searchRelevantData "arabian sea" [profileRegionOnly] = .ok [profileRegionOnly]
  ∧ scoreProfileStrict profileRegionOnly (pyLower "arabian sea").toList [] [] none false = some 5
  ∧ createContextSummary [profileRegionOnly] "arabian sea" = .error () := by
  exact ⟨rfl, rfl, rfl⟩

/-- C7.  The summary of an empty profile list is exactly the fixed no-data
sentinel, for every query string. -/
theorem spec_C7 (q : String) :
    createContextSummary [] q = .ok "No relevant data found in the specified time period." := rfl

/-- C9.  The summarizer is a deterministic pure function of its two
arguments: it reads no session state in the source (the embedding is a
function of exactly the profile list and the query), so two calls with the
same arguments return byte-identical strings. -/
theorem spec_C9 (profiles : List Profile) (q : String) (r1 r2 : Except Unit String)
    (h1 : createContextSummary profiles q = r1) (h2 : createContextSummary profiles q = r2) :
    r1 = r2 := h1 ▸ h2

/-- C9 witness: two calls at a concrete input. -/
theorem spec_C9_witness :
    (Except.ok "No relevant data found in the specified time period." : Except Unit String) =
      Except.ok "No relevant data found in the specified time period." :=
  spec_C9 [] "status" (.ok "No relevant data found in the specified time period.")
    (.ok "No relevant data found in the specified time period.") rfl rfl

/-- C10.  The no-data sentinel is not the only degenerate output: for the
non-empty singleton list of `profileMay2022` (one `2022-05` group, so no
TEMPORAL RANGE segment) and the comparison query `"compare 2023"` (a
comparison keyword plus a literal year matching no profile), the
comparison branch groups zero profiles and the summary is the empty
string — not the sentinel, and not a profile segment. -/
theorem spec_C10 :
    createContextSummary [profileMay2022] "compare 2023" = .ok ""
  ∧ [profileMay2022] ≠ []
  ∧ ("" : String) ≠ "No relevant data found in the specified time period." := by
  refine ⟨rfl, by simp, by decide⟩

/-! ### Non-negativity of the strict scorer (C3) -/

theorem strictDateTier_nonneg (py pm pdy : Option Int) (d : SpecificDate) :
    0 ≤ strictDateTier py pm pdy d := by
  unfold strictDateTier
  split
  · split
    · norm_num
    · split_ifs <;> norm_num
  · norm_num

theorem strictMonthSubPts_nonneg (pm : Option Int) (months : List Int) (v : Int)
    (h : strictMonthSubPts pm months = some v) : 0 ≤ v := by
  unfold strictMonthSubPts at h
  split_ifs at h with h1 h2
  · cases h; norm_num
  · cases h; norm_num
  · cases pm with
    | none => cases h
    | some pv =>
      simp only [Option.some.injEq] at h
      subst h
      split_ifs <;> norm_num

theorem strictYearMonthTier_nonneg (py pm : Option Int) (years : List String)
    (months : List Int) (v : Int) (h : strictYearMonthTier py pm years months = some v) :
    0 ≤ v := by
  unfold strictYearMonthTier at h
  split_ifs at h
  · rcases hm : strictMonthSubPts pm months with _ | mpts
    · rw [hm] at h; cases h
    · rw [hm] at h
      simp only [Option.some.injEq] at h
      subst h
      have := strictMonthSubPts_nonneg pm months mpts hm
      omega
  · cases h; norm_num

theorem strictTemporalPts_nonneg (t : Temporal) (years : List String) (months : List Int)
    (sd : Option SpecificDate) (v : Int) (h : strictTemporalPts t years months sd = some v) :
    0 ≤ v := by
  unfold strictTemporalPts at h
  cases sd with
  | some d =>
    simp only [Option.some.injEq] at h
    subst h
    exact strictDateTier_nonneg t.year t.month t.day d
  | none =>
    split_ifs at h
    · exact strictYearMonthTier_nonneg t.year t.month years months v h
    · cases h; norm_num

theorem strictRegionPts_nonneg (p : Profile) (ql : List Char) : 0 ≤ strictRegionPts p ql := by
  unfold strictRegionPts
  positivity

theorem strictParamPts_nonneg (p : Profile) (ql : List Char) : 0 ≤ strictParamPts p ql := by
  unfold strictParamPts
  split_ifs <;> decide

/-- C3.  The strict relevance score is never negative (no rule subtracts),
and whenever the scorer completes — `some s` models a profile not skipped
by the `except` — a profile with `TEMP.present` truthy scores at least 1:
either some rule contributed ≥ 1, or the fallback lifted the zero score
to exactly 1. -/
theorem spec_C3 (p : Profile) (ql : List Char) (years : List String) (months : List Int)
    (sd : Option SpecificDate) (isGen : Bool) (s : Int)
    (h : scoreProfileStrict p ql years months sd isGen = some s) :
    0 ≤ s ∧ (vdPresent p.coreVars.TEMP = true → 1 ≤ s) := by
  unfold scoreProfileStrict at h
  rcases htp : strictTemporalPts p.temporalD years months sd with _ | tp
  · rw [htp] at h; cases h
  · rw [htp] at h
    simp only [Option.some.injEq] at h
    have h1 : 0 ≤ tp := strictTemporalPts_nonneg _ _ _ _ _ htp
    have h2 : 0 ≤ strictRegionPts p ql := strictRegionPts_nonneg p ql
    have h3 : 0 ≤ strictParamPts p ql := strictParamPts_nonneg p ql
    have h4 : 0 ≤ (if isGen && p.uploadedFlag then (10 : Int) else 0) := by split_ifs <;> norm_num
    subst h
    constructor
    · split_ifs <;> omega
    · intro hT
      by_cases htot : (if isGen && p.uploadedFlag then (10 : Int) else 0) + tp +
          strictRegionPts p ql + strictParamPts p ql = 0
      · rw [if_pos htot, if_pos hT]
      · rw [if_neg htot]
        omega

/-- C3 witness: a profile whose only feature is `TEMP.present`, scored
against an empty query, receives exactly the fallback score; the theorem
instantiates to `0 ≤ 1` and `1 ≤ 1`. -/
theorem spec_C3_witness :
    0 ≤ (1 : Int) ∧ (vdPresent profileTempOnly.coreVars.TEMP = true → 1 ≤ (1 : Int)) :=
  spec_C3 profileTempOnly [] [] [] none false 1 rfl

/-! ### Month-list multiplicity (C6) -/

/-- C6 counterexample.  For the query `"august"` no specific date is found,
yet the extracted month list is `[8, 8]`: the table iteration appends 8
once for the full name `'august'` and once more for the abbreviation
`'aug'`, which is also a substring — the list is not deduplicated. -/
theorem spec_C6_counterexample :
    extractSpecificDate (pyLower "august").toList = .ok none
  ∧ monthsFromQuery (pyLower "august").toList = [8, 8]
  ∧ ¬ (monthsFromQuery (pyLower "august").toList).count 8 ≤ 1 := by
  exact ⟨rfl, rfl, by decide⟩

/-- C6 (amended).  Each month number occurs at most **twice** in the
extracted month list: the `months_map` table holds at most two names per
month (full name and abbreviation), so a month whose full name appears
contributes its number twice (e.g. `"august"` yields `[8, 8]`), never
more.  Downstream use is membership-only, so multiplicity is harmless. -/
theorem spec_C6_amended (ql : List Char) (m : Int) :
    (monthsFromQuery ql).count m ≤ 2 := by
  have hsub : (monthsFromQuery ql).count m ≤ (monthsMapList.map (·.2)).count m := by
    apply List.Sublist.count_le
    unfold monthsFromQuery
    exact List.Sublist.map _ (List.filter_sublist monthsMapList)
  have hall : ∀ v ∈ monthsMapList.map (·.2), (monthsMapList.map (·.2)).count v ≤ 2 := by
    decide
  by_cases hm : m ∈ monthsMapList.map (·.2)
  · exact le_trans hsub (hall m hm)
  · have : (monthsMapList.map (·.2)).count m = 0 := by
      rw [List.count_eq_zero]
      exact hm
    omega

/-! ### Relaxed-scorer year comparison (C8) -/

/-- C8.  In the relaxed scorer with no specific date, two profiles
identical except for `temporal.year` — one whose year is among the queried
years (+8), the other whose year misses every queried year but is within
1 of one of them (+4) — differ by exactly the 4-point year-tier gap, so
the adjacent-year profile scores strictly lower. -/
theorem spec_C8 (base : Profile) (t : Temporal) (ql : List Char) (years : List String)
    (months : List Int) (tys : List Int) (y1 y2 : Int) (s1 s2 : Int)
    (hparse : years.mapM (fun y => (pyInt y).toOption) = some tys)
    (hy1 : y1 ∈ tys) (hy2 : y2 ∉ tys) (hadj : ∃ y ∈ tys, (y2 - y).natAbs = 1)
    (h1 : scoreProfileFlexible { base with temporal := some { t with year := some y1 } }
            ql years months none = some s1)
    (h2 : scoreProfileFlexible { base with temporal := some { t with year := some y2 } }
            ql years months none = some s2) :
    s2 < s1 ∧ s2 + 4 = s1 := by
  have hne : years ≠ [] := by
    rintro rfl
    simp only [List.mapM_nil, Option.pure_def, Option.some.injEq] at hparse
    rw [← hparse] at hy1
    cases hy1
  have hd1 : flexDateYearPts (some y1) t.month t.day years none = some 8 := by
    unfold flexDateYearPts flexYearTier
    rw [if_neg hne, hparse]
    simp [decide_eq_true hy1]
  have hd2 : flexDateYearPts (some y2) t.month t.day years none = some 4 := by
    have hany : tys.any (fun y => decide ((y2 - y).natAbs ≤ 1)) = true := by
      rw [List.any_eq_true]
      obtain ⟨y, hy, he⟩ := hadj
      exact ⟨y, hy, decide_eq_true (by omega)⟩
    unfold flexDateYearPts flexYearTier
    rw [if_neg hne, hparse]
    simp [decide_eq_false hy2, hany]
  unfold scoreProfileFlexible at h1 h2
  simp only [Profile.temporalD, Option.getD_some] at h1 h2
  rw [hd1] at h1
  rw [hd2] at h2
  rcases hm : flexMonthTier t.month months with _ | mp
  · rw [hm] at h1
    cases h1
  · rw [hm] at h1 h2
    simp only [Option.some.injEq] at h1 h2
    have hR : flexRegionPts { base with temporal := some { t with year := some y1 } } ql =
        flexRegionPts { base with temporal := some { t with year := some y2 } } ql := rfl
    have hP : flexParamPts { base with temporal := some { t with year := some y1 } } ql =
        flexParamPts { base with temporal := some { t with year := some y2 } } ql := rfl
    constructor <;> omega

/-- C8 witness: query years `["2021"]`, an exact-2021 profile against a
2022 profile; the exact match scores 8, the adjacent year 4. -/
theorem spec_C8_witness : (4 : Int) < 8 ∧ (4 : Int) + 4 = 8 :=
  spec_C8 profileTempOnly ⟨none, none, none, none⟩ [] ["2021"] [] [2021] 2021 2022 8 4
    rfl (by decide) (by decide) ⟨2021, by decide, by decide⟩ rfl rfl

/-! ### Ranking contract (C4) and escalation contract (C5) -/

theorem rankProfiles_length_le (scored : List (Profile × Int)) :
    (rankProfiles scored).length ≤ 15 := by
  unfold rankProfiles
  rw [List.length_map]
  exact List.length_take_le 15 _

/-- C4.  Both search passes obey the same ranking discipline: every kept
pair has a strictly positive score, the sort is descending in score and
stable (every score class of the sorted list is the score class of the
input, in input order), the published list is the first 15 profiles of the
sorted list, and any list `search_relevant_data` returns — from either
pass — has at most 15 entries. -/
theorem spec_C4 (i : QueryIntent) (pd : List Profile) (q : String) (years : List String)
    (months : List Int) (sd : Option SpecificDate) (s : Int) :
    (∀ x ∈ strictScoredList i pd, 0 < x.2)
  ∧ (insSortBy scoreGeB (strictScoredList i pd)).Pairwise (fun a b => b.2 ≤ a.2)
  ∧ (insSortBy scoreGeB (strictScoredList i pd)).filter (fun x => decide (x.2 = s)) =
      (strictScoredList i pd).filter (fun x => decide (x.2 = s))
  ∧ rankProfiles (strictScoredList i pd) =
      ((insSortBy scoreGeB (strictScoredList i pd)).take 15).map Prod.fst
  ∧ (rankProfiles (strictScoredList i pd)).length ≤ 15
  ∧ (∀ x ∈ flexScoredList (pyLower q).toList years months sd pd, 0 < x.2)
  ∧ (insSortBy scoreGeB (flexScoredList (pyLower q).toList years months sd pd)).Pairwise
      (fun a b => b.2 ≤ a.2)
  ∧ (insSortBy scoreGeB (flexScoredList (pyLower q).toList years months sd pd)).filter
        (fun x => decide (x.2 = s)) =
      (flexScoredList (pyLower q).toList years months sd pd).filter (fun x => decide (x.2 = s))
  ∧ searchRelevantDataFlexible q pd years months sd =
      ((insSortBy scoreGeB (flexScoredList (pyLower q).toList years months sd pd)).take 15).map
        Prod.fst
  ∧ (searchRelevantDataFlexible q pd years months sd).length ≤ 15
  ∧ (∀ r, searchRelevantData q pd = .ok r → r.length ≤ 15) := by
  refine ⟨fun x hx => mem_positivelyScored hx,
    pairwise_insSortBy _,
    filter_insSortBy s _,
    rfl,
    rankProfiles_length_le _,
    fun x hx => mem_positivelyScored hx,
    pairwise_insSortBy _,
    filter_insSortBy s _,
    rfl,
    rankProfiles_length_le _,
    ?_⟩
  intro r hr
  unfold searchRelevantData at hr
  rcases hq : queryIntent q with e | i'
  · rw [hq] at hr
    cases hr
  · rw [hq] at hr
    simp only [] at hr
    split_ifs at hr
    · cases hr
      exact rankProfiles_length_le _
    · cases hr
      rw [List.length_map]
      exact List.length_take_le 15 _

/-- C4 witness: a query with no temporal signal over an empty profile set
returns the empty list, which satisfies the 15-entry bound. -/
theorem spec_C4_witness : ([] : List Profile).length ≤ 15 := by
  have h := spec_C4 ⟨[], [], [], none, false⟩ [] "hello" [] [] none 0
  exact h.2.2.2.2.2.2.2.2.2.2 [] rfl

/-- C5.  The relaxed fallback is invoked exactly when the strict pass kept
no positively-scored profile AND the intent carried a temporal signal
(years, months, or a specific date); with no signal the strict pass's
empty answer is returned as-is, and when the relaxed pass is also empty
the final answer is the empty list — no further escalation exists. -/
theorem spec_C5 (q : String) (pd : List Profile) (i : QueryIntent)
    (h : queryIntent q = .ok i) :
    (strictScoredList i pd = [] ∧ (i.years ≠ [] ∨ i.months ≠ [] ∨ i.sd.isSome) →
      searchRelevantData q pd = .ok (searchRelevantDataFlexible q pd i.years i.months i.sd))
  ∧ (strictScoredList i pd = [] ∧ ¬(i.years ≠ [] ∨ i.months ≠ [] ∨ i.sd.isSome) →
      searchRelevantData q pd = .ok [])
  ∧ (strictScoredList i pd ≠ [] →
      searchRelevantData q pd = .ok (rankProfiles (strictScoredList i pd)))
  ∧ (strictScoredList i pd = [] ∧ (i.years ≠ [] ∨ i.months ≠ [] ∨ i.sd.isSome) ∧
        flexScoredList (pyLower q).toList i.years i.months i.sd pd = [] →
      searchRelevantData q pd = .ok []) := by
  have hred : searchRelevantData q pd =
      (if (insSortBy scoreGeB (strictScoredList i pd)).isEmpty &&
          (!i.years.isEmpty || !i.months.isEmpty || i.sd.isSome) then
        Except.ok (searchRelevantDataFlexible q pd i.years i.months i.sd)
      else
        Except.ok (((insSortBy scoreGeB (strictScoredList i pd)).take 15).map Prod.fst)) := by
    unfold searchRelevantData
    rw [h]
  refine ⟨?_, ?_, ?_, ?_⟩
  · rintro ⟨hempty, hsig⟩
    have hsigb : (!i.years.isEmpty || !i.months.isEmpty || i.sd.isSome) = true := by
      rcases hsig with hy | hm | hs
      · simp [List.isEmpty_iff, hy]
      · simp [List.isEmpty_iff, hm]
      · simp [hs]
    rw [hred, hempty]
    simp [hsigb, insSortBy]
  · rintro ⟨hempty, hsig⟩
    push_neg at hsig
    obtain ⟨hy, hm, hs⟩ := hsig
    rw [hred, hempty]
    simp [insSortBy, List.isEmpty_iff, hy, hm, hs]
  · intro hne
    have hrne : ¬ (insSortBy scoreGeB (strictScoredList i pd)).isEmpty = true := by
      rw [List.isEmpty_iff]
      rw [insSortBy_eq_nil_iff]
      exact hne
    rw [hred, if_neg]
    · rfl
    · simp only [Bool.and_eq_true]
      rintro ⟨hc, -⟩
      exact hrne hc
  · rintro ⟨hempty, hsig, hflex⟩
    have hsigb : (!i.years.isEmpty || !i.months.isEmpty || i.sd.isSome) = true := by
      rcases hsig with hy | hm | hs
      · simp [List.isEmpty_iff, hy]
      · simp [List.isEmpty_iff, hm]
      · simp [hs]
    rw [hred, hempty]
    unfold searchRelevantDataFlexible
    rw [hflex]
    simp [hsigb, insSortBy, rankProfiles]

/-- C5 witness: the query `"hello"` (no temporal signal) over the empty
profile set returns the empty list without invoking the fallback. -/
theorem spec_C5_witness : searchRelevantData "hello" [] = .ok [] := by
  have h := spec_C5 "hello" []
    ⟨['h', 'e', 'l', 'l', 'o'], [], [], none, false⟩ rfl
  exact h.2.1 ⟨rfl, by simp⟩
